import Mathlib

/-!
Shallow embedding of the ansible-dcnm repository fragments relevant to the
frozen claims: the `DcnmNetworkv2` reconciliation module
(`plugins/modules/dcnm_networkv2.py`), the polling helper
`WaitForControllerDone` (`plugins/module_utils/image_upgrade/wait_for_controller_done.py`),
`ImageValidate` (`plugins/module_utils/image_upgrade/image_validate.py`),
`FabricConfigSave` (`plugins/module_utils/fabric/config_save.py`) and
`VerifyPlaybookParams` (`plugins/module_utils/fabric/verify_playbook_params.py`).

Python dynamic values are embedded as `PyVal`; raised exceptions are embedded
as an `Option PyErr` (or `Except`-style) component of the return value, and the
mutable object attributes touched by each method are threaded explicitly.
REST traffic is abstracted to a count or a trace of issued calls, with the
response of each call supplied by an environment structure, since the HTTP
transport (`dcnm_send`, `RestSend`) is outside the embedded sources.
-/

namespace Dcnm

/-- Embedding of the Python values that flow through the embedded code:
`None`, `bool`, `int`, `str`, `list`, `dict` (dicts as association lists). -/
inductive PyVal where
  | pynone
  | pybool (b : Bool)
  | pyint (n : Int)
  | pystr (s : String)
  | pylist (xs : List PyVal)
  | pydict (kvs : List (String × PyVal))

/-- The two exception classes raised by the embedded property setters and
commit methods (`TypeError`, `ValueError`). -/
inductive PyErr where
  | typeError
  | valueError
deriving DecidableEq

/-- Python `dict.get(k)`: first binding of `k` in the association list,
`none` when the key is absent. -/
def dictGet (kvs : List (String × PyVal)) (k : String) : Option PyVal :=
  match kvs with
  | [] => none
  | (k2, v) :: rest => if k2 = k then some v else dictGet rest k

/-- Python truthiness `bool(v)`: `None` and `False` are falsy, numbers are
truthy iff nonzero, strings/lists/dicts are truthy iff nonempty. -/
def pytruthy : PyVal → Bool
  | .pynone => false
  | .pybool b => b
  | .pyint n => !(n == 0)
  | .pystr s => !(s.length == 0)
  | .pylist xs => !(xs.length == 0)
  | .pydict kvs => !(kvs.length == 0)

/-- Python `isinstance(v, bool)`. -/
def isinstance_bool : PyVal → Bool
  | .pybool _ => true
  | _ => false

/-- Python `isinstance(v, int)`; note `isinstance(True, int)` is `True` in
Python, which the source setters work around by testing `bool` first. -/
def isinstance_int : PyVal → Bool
  | .pybool _ => true
  | .pyint _ => true
  | _ => false

/-- `WaitForControllerDone.check_interval` setter
(wait_for_controller_done.py lines 136-149): raise `TypeError` for a `bool`
or non-`int` value, raise `ValueError` for a negative `int`, otherwise store
the value.  The result pairs the raised exception (if any) with the stored
attribute after the call; on a raise the stored value is the old one. -/
def check_interval_setter (stored : Int) (value : PyVal) : Option PyErr × Int :=
  if isinstance_bool value then (some .typeError, stored)
  else if !(isinstance_int value) then (some .typeError, stored)
  else
    match value with
    | .pyint n => if n < 0 then (some .valueError, stored) else (none, n)
    | _ => (some .typeError, stored)

/-- `WaitForControllerDone.check_timeout` setter
(wait_for_controller_done.py lines 169-182); its body is identical to the
`check_interval` setter.  The same two setters appear verbatim in
`ImageValidate` (image_validate.py lines 382-417). -/
def check_timeout_setter (stored : Int) (value : PyVal) : Option PyErr × Int :=
  if isinstance_bool value then (some .typeError, stored)
  else if !(isinstance_int value) then (some .typeError, stored)
  else
    match value with
    | .pyint n => if n < 0 then (some .valueError, stored) else (none, n)
    | _ => (some .typeError, stored)

/-- `ImageValidate.serial_numbers` setter (image_validate.py lines 343-353):
raise `TypeError` for any non-`list` value, otherwise store the list. -/
def serial_numbers_setter (stored : Option PyVal) (value : PyVal) :
    Option PyErr × Option PyVal :=
  match value with
  | .pylist xs => (none, some (.pylist xs))
  | _ => (some .typeError, stored)

/-- `FabricConfigSave.payload` setter (config_save.py lines 211-229): raise
`ValueError` for a non-`dict` value, raise `ValueError` when
`value.get("FABRIC_NAME")` is absent or `None`, then validate the fabric
name (via `ConversionUtils.validate_fabric_name`, which is outside the
embedded sources and is abstracted as the `validate_fabric_name` argument;
the setter wraps its failure as `ValueError`), and finally store the dict. -/
def fcs_payload_setter (validate_fabric_name : PyVal → Bool)
    (stored : Option PyVal) (value : PyVal) : Option PyErr × Option PyVal :=
  match value with
  | .pydict kvs =>
    match dictGet kvs "FABRIC_NAME" with
    | none => (some .valueError, stored)
    | some .pynone => (some .valueError, stored)
    | some v =>
      if validate_fabric_name v then (none, some (.pydict kvs))
      else (some .valueError, stored)
  | _ => (some .valueError, stored)

/-! ### The shared polling loop

`WaitForControllerDone.commit` (wait_for_controller_done.py lines 95-107),
`ImageValidate._wait_for_current_actions_to_complete` (image_validate.py
lines 252-265) and `ImageValidate._wait_for_image_validate_to_complete`
(image_validate.py lines 286-323) all run the same loop shape:

  while done != todo and timeout > 0:
      sleep(check_interval)
      timeout -= check_interval
      refresh()
      for item in todo not yet done: if completed(item): done.add(item)

The loop is embedded as a step function on an explicit state, driven by an
oracle `p : Nat -> String -> Bool` giving, for the n-th `refresh()` of the
controller data, whether an item is observed complete (for the first two
loops: `actions_in_progress is False`; for the third: `validated ==
"Success"`).  Since the Python loop need not terminate (nothing forces the
timeout to decrease when `check_interval` is zero), the embedding takes an
iteration budget (`fuel`); a budget of `check_timeout.toNat` is exact
whenever `check_interval >= 1`, because then the guard fails after at most
that many iterations. -/

/-- State of one polling loop: the set of completed items and the remaining
timeout (a Python `int`, so an unbounded `Int` that may go negative). -/
structure WaitSt where
  done : Finset String
  timeout : Int
deriving DecidableEq

/-- Loop guard `done != todo and timeout > 0`. -/
def waitGuard (todo : Finset String) (s : WaitSt) : Bool :=
  decide (s.done ≠ todo) && decide (0 < s.timeout)

/-- One loop iteration: decrement the timeout by `check_interval`, refresh
(the n-th refresh) and add every todo item the oracle reports complete. -/
def waitStep (interval : Int) (todo : Finset String) (p : Nat → String → Bool)
    (n : Nat) (s : WaitSt) : WaitSt :=
  { done := s.done ∪ todo.filter (fun i => p n i), timeout := s.timeout - interval }

/-- Run the polling loop from refresh index `n` for at most `fuel`
iterations; returns the final state and the number of iterations actually
executed (each iteration performs exactly one `refresh()` REST query). -/
def waitRunP (interval : Int) (todo : Finset String) (p : Nat → String → Bool) :
    Nat → Nat → WaitSt → WaitSt × Nat
  | _, 0, s => (s, 0)
  | n, fuel + 1, s =>
    if waitGuard todo s then
      let r := waitRunP interval todo p (n + 1) fuel (waitStep interval todo p n s)
      (r.1, r.2 + 1)
    else (s, 0)

/-- The final state of the polling loop (first component of `waitRunP`). -/
def waitRun (interval : Int) (todo : Finset String) (p : Nat → String → Bool)
    (n : Nat) (fuel : Nat) (s : WaitSt) : WaitSt :=
  (waitRunP interval todo p n fuel s).1

/-! ### WaitForControllerDone -/

/-- The properties of a `WaitForControllerDone` instance read by `commit`:
`items`, `item_type` and `rest_send` start as `None` and must be assigned
before `commit()`; `check_interval`/`check_timeout` default to 10 and 1800.
`rest_send` is abstracted to a presence flag since the class only forwards
it. -/
structure WfcdProps where
  items : Option (Finset String)
  item_type : Option String
  rest_send : Option Unit
  check_interval : Int
  check_timeout : Int

/-- `WaitForControllerDone.commit` (wait_for_controller_done.py lines
73-116) together with `verify_commit_parameters` (lines 55-70): raise
`ValueError` when `items`, `item_type` or `rest_send` is unset; return
immediately when `items` is empty; otherwise poll (oracle `p` reports
`actions_in_progress is False`) and raise `ValueError` when the loop ends
with `done != todo`.  The result pairs the raised exception (if any) with
the number of `refresh()` REST queries issued.  The iteration budget
`check_timeout.toNat` matches the Python loop exactly when
`check_interval >= 1` (see `waitRunP`). -/
def wfcd_commit (ps : WfcdProps) (p : Nat → String → Bool) : Option PyErr × Nat :=
  match ps.items with
  | none => (some .valueError, 0)
  | some items =>
    if ps.item_type.isNone then (some .valueError, 0)
    else if ps.rest_send.isNone then (some .valueError, 0)
    else if items.card = 0 then (none, 0)
    else
      let todo := items
      let r := waitRunP ps.check_interval todo p 0 ps.check_timeout.toNat
        { done := ∅, timeout := ps.check_timeout }
      if r.1.done ≠ todo then (some .valueError, r.2) else (none, r.2)

/-! ### ImageValidate -/

/-- One iteration budget run of the loop in
`ImageValidate._wait_for_image_validate_to_complete` (image_validate.py
lines 286-323).  Like `waitRunP` but the body raises `ValueError` as soon
as a not-yet-done serial number reports `validated == "Failed"`, and marks
a serial number done when it reports `validated == "Success"`.  Returns the
final state, the number of iterations executed (one `refresh()` each) and
whether the `Failed` branch raised. -/
def ivValidateLoop (interval : Int) (todo : Finset String)
    (validated : Nat → String → String) :
    Nat → Nat → WaitSt → WaitSt × Nat × Bool
  | _, 0, s => (s, 0, false)
  | n, fuel + 1, s =>
    if waitGuard todo s then
      if ((todo \ s.done).filter (fun i => validated n i = "Failed")) ≠ ∅ then
        ({ done := s.done, timeout := s.timeout - interval }, 1, true)
      else
        let s1 : WaitSt :=
          { done := s.done ∪ todo.filter (fun i => validated n i = "Success"),
            timeout := s.timeout - interval }
        let r := ivValidateLoop interval todo validated (n + 1) fuel s1
        (r.1, r.2.1 + 1, r.2.2)
    else (s, 0, false)

/-- Environment for `ImageValidate.commit`: the per-refresh controller
observations surfaced through `SwitchIssuDetailsBySerialNumber` (outside the
embedded sources) and the outcome of the one `rest_send.commit()` POST. -/
structure IvEnv where
  validated_at : Nat → String → String
  actions_in_progress : Nat → String → Bool
  rest_send_success : Bool
  rest_send_result : List (String × PyVal)
  rest_send_response : List (String × PyVal)
  check_interval : Int
  check_timeout : Int

/-- Observable outcome of `ImageValidate.commit`: the raised exception (if
any), the values assigned to `result_current` / `response_current` during
the call (`none` when the call raised before assigning them), and the
number of REST calls issued (each `issu_detail.refresh()` is one GET, plus
the one validate-image POST). -/
structure IvResult where
  err : Option PyErr
  result_current : Option (List (String × PyVal))
  response_current : Option (List (String × PyVal))
  requests : Nat

/-- `ImageValidate.commit` (image_validate.py lines 145-237) with its
helpers `prune_serial_numbers` (lines 89-105, refresh #0),
`validate_serial_numbers` (lines 107-133, refresh #1),
`_wait_for_current_actions_to_complete` (lines 239-274, refreshes from #2)
and `_wait_for_image_validate_to_complete` (lines 276-332).  With an empty
`serial_numbers` list it assigns `result_current = {"success": True}` and
returns at once, issuing no REST call. -/
def image_validate_commit (env : IvEnv) (serial_numbers : List String) : IvResult :=
  if serial_numbers.length = 0 then
    { err := none,
      result_current := some [("success", PyVal.pybool true)],
      response_current := some [("response", PyVal.pystr "No serial numbers to validate.")],
      requests := 0 }
  else
    let sn1 := serial_numbers.filter (fun s => !(env.validated_at 0 s == "Success"))
    if sn1.any (fun s => env.validated_at 1 s == "Failed") then
      { err := some .valueError, result_current := none,
        response_current := none, requests := 2 }
    else
      let todo1 : Finset String := sn1.toFinset
      let r1 := waitRunP env.check_interval todo1
        (fun n i => !(env.actions_in_progress n i)) 2 env.check_timeout.toNat
        { done := ∅, timeout := env.check_timeout }
      if r1.1.done ≠ todo1 then
        { err := some .valueError, result_current := none,
          response_current := none, requests := 2 + r1.2 }
      else if !env.rest_send_success then
        { err := some .valueError, result_current := some env.rest_send_result,
          response_current := some env.rest_send_response, requests := 3 + r1.2 }
      else
        let r2 := ivValidateLoop env.check_interval todo1 env.validated_at
          (2 + r1.2) env.check_timeout.toNat { done := ∅, timeout := env.check_timeout }
        if r2.2.2 then
          { err := some .valueError, result_current := some env.rest_send_result,
            response_current := some env.rest_send_response,
            requests := 3 + r1.2 + r2.2.1 }
        else if r2.1.done ≠ todo1 then
          { err := some .valueError, result_current := some env.rest_send_result,
            response_current := some env.rest_send_response,
            requests := 3 + r1.2 + r2.2.1 }
        else
          { err := none, result_current := some env.rest_send_result,
            response_current := some env.rest_send_response,
            requests := 3 + r1.2 + r2.2.1 }

/-! ### FabricConfigSave -/

/-- The `_properties` of a `FabricConfigSave` instance read by `commit`;
all four start as `None` (config_save.py lines 91-96).  `rest_send` and
`results` are abstracted to presence flags. -/
structure FcsProps where
  payload : Option (List (String × PyVal))
  rest_send : Option Unit
  results : Option Unit

/-- `FabricConfigSave.commit` (config_save.py lines 117-185): raise
`ValueError` when `payload`, `rest_send` or `results` is unset (in that
order, before any REST traffic); run `_can_fabric_be_saved` (lines 98-115:
saved only when `payload.get("DEPLOY")` is neither `False` nor `None`) and
return without a REST call when the fabric cannot be saved; otherwise
resolve the endpoint (`EpFabricConfigSave`, outside the embedded sources,
abstracted as `ep_ok`; a failure is re-raised as `ValueError`) and issue the
one config-save POST via `rest_send.commit()`.  Returns the raised
exception (if any) and the number of REST calls issued. -/
def fcs_commit (ps : FcsProps) (ep_ok : Bool) : Option PyErr × Nat :=
  match ps.payload with
  | none => (some .valueError, 0)
  | some payload =>
    if ps.rest_send.isNone then (some .valueError, 0)
    else if ps.results.isNone then (some .valueError, 0)
    else
      let fabric_can_be_saved :=
        match dictGet payload "DEPLOY" with
        | none => false
        | some .pynone => false
        | some (.pybool b) => b
        | some _ => true
      if !fabric_can_be_saved then (none, 0)
      else if !ep_ok then (some .valueError, 0)
      else (none, 1)

/-! ### DcnmNetworkv2.get_have: attachment classification -/

/-- The fields of one controller attachment object read by the
classification in `DcnmNetworkv2.get_have` (dcnm_networkv2.py lines
777-792).  `isLanAttached` is kept as a raw `PyVal` because the source
tests it with Python truthiness (`bool(deployment)`). -/
structure LanAttach where
  isLanAttached : PyVal
  lanAttachState : String
  switchSerialNo : String
  networkName : String

/-- The classification in `get_have` (dcnm_networkv2.py lines 778-786):

  deployment = attach["isLanAttached"]
  if (not bool(deployment) or state == "OUT-OF-SYNC"
      or state == "PENDING" or state == "FAILED"): deployed = False
  else: deployed = True
-/
def attach_deployed (a : LanAttach) : Bool :=
  if !(pytruthy a.isLanAttached) || a.lanAttachState == "OUT-OF-SYNC"
      || a.lanAttachState == "PENDING" || a.lanAttachState == "FAILED"
  then false
  else true

/-- Lookup in the `have_deploy` dict: the list bound to a serial number,
empty when the key is absent. -/
def deployLookup (m : List (String × List String)) (k : String) : List String :=
  match m with
  | [] => []
  | (k2, v) :: rest => if k2 = k then v else deployLookup rest k

/-- Replace the value of the first binding of `k` (the Python dict update
`have_deploy[sn].append(name)` on an existing key). -/
def deployUpdate (m : List (String × List String)) (k : String) (v : List String) :
    List (String × List String) :=
  match m with
  | [] => []
  | (k2, v2) :: rest =>
    if k2 = k then (k2, v) :: rest else (k2, v2) :: deployUpdate rest k v

/-- The recording step in `get_have` (dcnm_networkv2.py lines 788-792):

  if deployed:
      if have_deploy.get(sn): have_deploy[sn].append(networkName)
      else: have_deploy[sn] = [networkName]

(`have_deploy.get(sn)` is truthy exactly when the key is bound, since every
bound list is nonempty). -/
def have_deploy_insert (m : List (String × List String)) (sn name : String) :
    List (String × List String) :=
  match deployLookup m sn with
  | [] => m ++ [(sn, [name])]
  | xs => deployUpdate m sn (xs ++ [name])

/-- The `have_deploy` dict built by the attachment loop of `get_have` over
the flattened `lanAttachList` entries of the attach-list response, in
response order. -/
def build_have_deploy (attaches : List LanAttach) : List (String × List String) :=
  attaches.foldl
    (fun m a =>
      if attach_deployed a then have_deploy_insert m a.switchSerialNo a.networkName
      else m)
    []

/-! ### DcnmNetworkv2: response handling and push_to_remote -/

/-- The response fields inspected by `DcnmNetworkv2.handle_response`
(dcnm_networkv2.py lines 1298-1332).  The three substring checks over
`str(res.values())` are abstracted as Booleans. -/
structure Resp where
  returnCode : Int
  message : Option String
  errorNotFound : Bool
  hasError : Bool
  inUseAlready : Bool
  invalidInterfaces : Bool
  noSwitchesPending : Bool

/-- A default response value (used only for an unreachable fuel-0 branch of
the attach retry loop). -/
def Resp.default : Resp :=
  { returnCode := 0, message := none, errorNotFound := false, hasError := false,
    inUseAlready := false, invalidInterfaces := false, noSwitchesPending := false }

/-- The `op` argument of `handle_response`. -/
inductive RespOp where
  | query_dcnm
  | create
  | attach
  | deploy
  | delete
deriving DecidableEq

/-- `DcnmNetworkv2.handle_response` (dcnm_networkv2.py lines 1298-1332),
returning the `(fail, changed)` pair. -/
def handle_response (res : Resp) (op : RespOp) : Bool × Bool :=
  if op = RespOp.query_dcnm then
    if res.errorNotFound && (res.returnCode == 404) then (true, false)
    else if !(res.returnCode == 200) || !(res.message == some "OK") then (false, true)
    else (false, false)
  else
    if !(res.message == some "OK") || !(res.returnCode == 200) then (true, false)
    else
      let p1 := if res.hasError then (true, false) else (false, true)
      let p2 := if op = RespOp.attach && res.inUseAlready then (true, false) else p1
      let p3 := if op = RespOp.attach && res.invalidInterfaces then (true, true) else p2
      if op = RespOp.deploy && res.noSwitchesPending then (p3.1, false) else p3

/-- The pieces of `DcnmNetworkv2` mutable state touched by
`push_to_remote`: `self.result["changed"]` (reassigned at every
`handle_response` call site), `self.failed_to_rollback` (set when a push
fails during a rollback), and whether `fail_json` aborted the module. -/
structure ModState where
  changed : Bool
  failed_to_rollback : Bool
  aborted : Bool
deriving DecidableEq

/-- `DcnmNetworkv2.failure` (dcnm_networkv2.py lines 1334-1335):

  def failure(self, resp):
      return

The method ignores its response argument and performs no action at all: it
neither re-pushes prior state (no call to `push_to_remote(True)`), nor
fails the module.  It is embedded as the identity on the module state. -/
def failure (st : ModState) : ModState := st

/-- The seven diff layers pushed by `push_to_remote`; every REST call the
method issues is tagged with the layer whose push function issues it. -/
inductive NetLayer where
  | createUpdate
  | detach
  | undeploy
  | delete
  | create
  | attach
  | deploy
deriving DecidableEq

/-- Position of each layer in the fixed push order of `push_to_remote`
(dcnm_networkv2.py lines 1191-1220). -/
def layerRank : NetLayer → Nat
  | .createUpdate => 0
  | .detach => 1
  | .undeploy => 2
  | .delete => 3
  | .create => 4
  | .attach => 5
  | .deploy => 6

/-- One entry of `diff_create` as read by `push_to_remote_create`: only the
truthiness of `networkTemplateConfig.get("vlanId", "")` matters for the
control flow (dcnm_networkv2.py lines 1103-1117). -/
structure CreateNet where
  hasVlanId : Bool

/-- The diff collections of a `DcnmNetworkv2` instance at the time
`push_to_remote` runs (dcnm_networkv2.py lines 218-244).  Lists and dicts
are reduced to what the push functions inspect: length / emptiness and, for
`diff_create`, the per-net `vlanId` presence. -/
structure NetDiffs where
  diff_create_update : List String
  diff_detach : List String
  diff_undeploy : List (String × List String)
  diff_delete : List String
  diff_create : List CreateNet
  diff_create_quick : List String
  diff_attach : List String
  diff_deploy : List (String × List String)

/-- Environment supplying the controller response for every REST call
`push_to_remote` can issue, and the loop-driving observations of the
delete-readiness polls (`wait_for_del_ready`, whose `while` loop is not
bounded by the source) and of the attach retry loop. -/
structure PushEnv where
  updateResp : Nat → Resp
  detachResp : Resp
  undeployResp : Resp
  delWaitPolls : Nat → Nat
  delOutOfSync : Nat → Bool
  deleteResp : Nat → Resp
  vlanResp : Nat → Resp
  createResp : Nat → Resp
  attachResp : Nat → Resp
  attachInProgress : Nat → Bool
  deployResp : Resp

/-- `DcnmNetworkv2.push_to_remote_update` (dcnm_networkv2.py lines
999-1013): one PUT per entry of `diff_create_update`; on failure, either
record `failed_to_rollback` and stop (rollback mode) or call the no-op
`failure` and continue. -/
def push_update_nets (env : PushEnv) (is_rollback : Bool) :
    List String → Nat → ModState → List NetLayer × ModState
  | [], _, st => ([], st)
  | _ :: rest, idx, st =>
    let fc := handle_response (env.updateResp idx) RespOp.create
    let st1 := { st with changed := fc.2 }
    if fc.1 then
      if is_rollback then ([NetLayer.createUpdate], { st1 with failed_to_rollback := true })
      else
        let r := push_update_nets env is_rollback rest (idx + 1) (failure st1)
        (NetLayer.createUpdate :: r.1, r.2)
    else
      let r := push_update_nets env is_rollback rest (idx + 1) st1
      (NetLayer.createUpdate :: r.1, r.2)

/-- `DcnmNetworkv2.push_to_remote_detach` (dcnm_networkv2.py lines
1015-1040): a single POST of the whole `diff_detach` payload, handled with
`op = "attach"`. -/
def push_detach (env : PushEnv) (is_rollback : Bool) (st : ModState) :
    List NetLayer × ModState :=
  let fc := handle_response env.detachResp RespOp.attach
  let st1 := { st with changed := fc.2 }
  if fc.1 then
    if is_rollback then ([NetLayer.detach], { st1 with failed_to_rollback := true })
    else ([NetLayer.detach], failure st1)
  else ([NetLayer.detach], st1)

/-- `DcnmNetworkv2.push_to_remote_undeploy` (dcnm_networkv2.py lines
1042-1069): a single POST of `diff_undeploy`, handled with
`op = "deploy"`. -/
def push_undeploy (env : PushEnv) (is_rollback : Bool) (st : ModState) :
    List NetLayer × ModState :=
  let fc := handle_response env.undeployResp RespOp.deploy
  let st1 := { st with changed := fc.2 }
  if fc.1 then
    if is_rollback then ([NetLayer.undeploy], { st1 with failed_to_rollback := true })
    else ([NetLayer.undeploy], failure st1)
  else ([NetLayer.undeploy], st1)

/-- The GET polls issued by `DcnmNetworkv2.wait_for_del_ready`
(dcnm_networkv2.py lines 956-989): for the i-th network of `diff_delete`
the `while not state` loop issues `env.delWaitPolls i + 1` GETs (at least
one; the loop count is controller-driven and unbounded in the source, so it
is supplied by the environment).  These calls belong to the delete layer. -/
def del_wait_trace (env : PushEnv) (n : Nat) : List NetLayer :=
  ((List.range n).map (fun i => List.replicate (env.delWaitPolls i + 1) NetLayer.delete)).flatten

/-- The deletion loop of `DcnmNetworkv2.push_to_remote_delete`
(dcnm_networkv2.py lines 1078-1090): networks left in state `OUT-OF-SYNC`
are collected into `del_failure` and skipped; each other network gets one
DELETE.  The third component reports whether `del_failure` is nonempty. -/
def push_delete_nets (env : PushEnv) (is_rollback : Bool) :
    List String → Nat → ModState → List NetLayer × ModState × Bool
  | [], _, st => ([], st, false)
  | _ :: rest, idx, st =>
    if env.delOutOfSync idx then
      let r := push_delete_nets env is_rollback rest (idx + 1) st
      (r.1, r.2.1, true)
    else
      let fc := handle_response (env.deleteResp idx) RespOp.delete
      let st1 := { st with changed := fc.2 }
      if fc.1 then
        if is_rollback then
          ([NetLayer.delete], { st1 with failed_to_rollback := true }, false)
        else
          let r := push_delete_nets env is_rollback rest (idx + 1) (failure st1)
          (NetLayer.delete :: r.1, r.2.1, r.2.2)
      else
        let r := push_delete_nets env is_rollback rest (idx + 1) st1
        (NetLayer.delete :: r.1, r.2.1, r.2.2)

/-- `DcnmNetworkv2.push_to_remote_delete` (dcnm_networkv2.py lines
1071-1098): wait for delete readiness, run the deletion loop, and handle a
nonempty `del_failure` (rollback flag in rollback mode, else the no-op
`failure`). -/
def push_delete (env : PushEnv) (diff_delete : List String) (is_rollback : Bool)
    (st : ModState) : List NetLayer × ModState :=
  let wtr := del_wait_trace env diff_delete.length
  let r := push_delete_nets env is_rollback diff_delete 0 st
  if r.2.2 then
    if is_rollback then (wtr ++ r.1, { r.2.1 with failed_to_rollback := true })
    else (wtr ++ r.1, failure r.2.1)
  else (wtr ++ r.1, r.2.1)

/-- `DcnmNetworkv2.push_to_remote_create` (dcnm_networkv2.py lines
1100-1130): per entry of `diff_create`, first a GET for an autogenerated
vlan id when `vlanId` is falsy (a non-200 answer calls `fail_json`, which
aborts the module), then the create POST. -/
def push_create_nets (env : PushEnv) (is_rollback : Bool) :
    List CreateNet → Nat → ModState → List NetLayer × ModState
  | [], _, st => ([], st)
  | net :: rest, idx, st =>
    if !net.hasVlanId && !((env.vlanResp idx).returnCode == 200) then
      ([NetLayer.create], { st with aborted := true })
    else
      let vtr : List NetLayer := if net.hasVlanId then [] else [NetLayer.create]
      let fc := handle_response (env.createResp idx) RespOp.create
      let st1 := { st with changed := fc.2 }
      if fc.1 then
        if is_rollback then
          (vtr ++ [NetLayer.create], { st1 with failed_to_rollback := true })
        else
          let r := push_create_nets env is_rollback rest (idx + 1) (failure st1)
          (vtr ++ NetLayer.create :: r.1, r.2)
      else
        let r := push_create_nets env is_rollback rest (idx + 1) st1
        (vtr ++ NetLayer.create :: r.1, r.2)

/-- The retry loop of `DcnmNetworkv2.push_to_remote_attach`
(dcnm_networkv2.py lines 1145-1159): `for attempt in range(0, 50)`, one
POST per attempt, retrying while the response data matches
`Failed.*Please try after some time`.  Returns the trace, the last
response and the final `update_in_progress` flag. -/
def attach_retry (env : PushEnv) : Nat → Nat → List NetLayer × Resp × Bool
  | attempt, 0 => ([], Resp.default, env.attachInProgress attempt)
  | attempt, fuel + 1 =>
    let resp := env.attachResp attempt
    let prog := env.attachInProgress attempt
    if prog && !(fuel == 0) then
      let r := attach_retry env (attempt + 1) fuel
      (NetLayer.attach :: r.1, r.2)
    else ([NetLayer.attach], resp, prog)

/-- `DcnmNetworkv2.push_to_remote_attach` (dcnm_networkv2.py lines
1132-1171): the retry loop, then `handle_response` on the last response; a
failure or a still-in-progress final attempt is treated as failure. -/
def push_attach (env : PushEnv) (is_rollback : Bool) (st : ModState) :
    List NetLayer × ModState :=
  let r := attach_retry env 0 50
  let fc := handle_response r.2.1 RespOp.attach
  let st1 := { st with changed := fc.2 }
  if fc.1 || r.2.2 then
    if is_rollback then (r.1, { st1 with failed_to_rollback := true })
    else (r.1, failure st1)
  else (r.1, st1)

/-- `DcnmNetworkv2.push_to_remote_deploy` (dcnm_networkv2.py lines
1173-1189): a single POST of `diff_deploy`. -/
def push_deploy (env : PushEnv) (is_rollback : Bool) (st : ModState) :
    List NetLayer × ModState :=
  let fc := handle_response env.deployResp RespOp.deploy
  let st1 := { st with changed := fc.2 }
  if fc.1 then
    if is_rollback then ([NetLayer.deploy], { st1 with failed_to_rollback := true })
    else ([NetLayer.deploy], failure st1)
  else ([NetLayer.deploy], st1)

/-- `DcnmNetworkv2.push_to_remote` (dcnm_networkv2.py lines 1191-1220):
push the non-empty diff layers in the fixed order create-update, detach,
undeploy, delete, create, attach, deploy.  A `fail_json` abort (possible
only in the create layer) stops every later layer, which the embedding
tracks through `ModState.aborted`. -/
def push_to_remote (env : PushEnv) (d : NetDiffs) (is_rollback : Bool)
    (st : ModState) : List NetLayer × ModState :=
  let r1 := if d.diff_create_update.isEmpty then ([], st)
    else push_update_nets env is_rollback d.diff_create_update 0 st
  let r2 := if d.diff_detach.isEmpty || r1.2.aborted then ([], r1.2)
    else push_detach env is_rollback r1.2
  let r3 := if d.diff_undeploy.isEmpty || r2.2.aborted then ([], r2.2)
    else push_undeploy env is_rollback r2.2
  let r4 := if d.diff_delete.isEmpty || r3.2.aborted then ([], r3.2)
    else push_delete env d.diff_delete is_rollback r3.2
  let r5 := if d.diff_create.isEmpty || r4.2.aborted then ([], r4.2)
    else push_create_nets env is_rollback d.diff_create 0 r4.2
  let r6 := if d.diff_attach.isEmpty || r5.2.aborted then ([], r5.2)
    else push_attach env is_rollback r5.2
  let r7 := if d.diff_deploy.isEmpty || r6.2.aborted then ([], r6.2)
    else push_deploy env is_rollback r6.2
  (r1.1 ++ (r2.1 ++ (r3.1 ++ (r4.1 ++ (r5.1 ++ (r6.1 ++ r7.1))))),
   r7.2)

/-- The `changed` flag computed by `main` right after the diff computation
(dcnm_networkv2.py lines 1384-1396): `True` iff at least one of the eight
diff collections is truthy (non-empty). -/
def main_changed_after_diff (d : NetDiffs) : Bool :=
  !d.diff_create.isEmpty || !d.diff_create_quick.isEmpty ||
  !d.diff_attach.isEmpty || !d.diff_deploy.isEmpty ||
  !d.diff_delete.isEmpty || !d.diff_create_update.isEmpty ||
  !d.diff_detach.isEmpty || !d.diff_undeploy.isEmpty

/-- The tail of `main` (dcnm_networkv2.py lines 1384-1400): set
`result["changed"]` from the eight diff collections, then run
`push_to_remote()` (with `is_rollback = False`), then `exit_json` with the
resulting state. -/
def main_exit (env : PushEnv) (d : NetDiffs) : List NetLayer × ModState :=
  push_to_remote env d false
    { changed := main_changed_after_diff d, failed_to_rollback := false,
      aborted := false }

/-! ### VerifyPlaybookParams -/

/-- `VerifyPlaybookParams.make_boolean` (verify_playbook_params.py lines
182-195): `str(value).lower()` equal to `"true"`/`"yes"` gives `True`,
`"false"`/`"no"` gives `False`, anything else is returned unchanged.  Only
`bool` and `str` inputs can produce one of those four words under `str()`
(`str()` of `None`, numbers, lists and dicts never does), so the embedding
matches on those two shapes. -/
def make_boolean (v : PyVal) : PyVal :=
  match v with
  | .pybool b => .pybool b
  | .pystr s =>
    if s.toLower = "true" || s.toLower = "yes" then .pybool true
    else if s.toLower = "false" || s.toLower = "no" then .pybool false
    else .pystr s
  | _ => v

/-- `VerifyPlaybookParams.controller_param_is_valid`
(verify_playbook_params.py lines 261-295): `None` when the controller
config is empty (fabric does not exist) or lacks the parameter, otherwise
the rule evaluation of the `make_boolean` of the controller value.  The
rule evaluation `eval(param_value op rule_value)` (lines 224-259, a Python
`eval`) is abstracted as the function `rule_eval`. -/
def controller_param_is_valid (config_controller : List (String × PyVal))
    (parameter : String) (rule_eval : PyVal → Bool) : Option Bool :=
  if config_controller.isEmpty then none
  else
    match dictGet config_controller parameter with
    | none => none
    | some v => some (rule_eval (make_boolean v))

/-- `VerifyPlaybookParams.playbook_param_is_valid`
(verify_playbook_params.py lines 297-325): `None` when the playbook config
lacks the parameter, otherwise the rule evaluation of the `make_boolean` of
the playbook value. -/
def playbook_param_is_valid (config_playbook : List (String × PyVal))
    (parameter : String) (rule_eval : PyVal → Bool) : Option Bool :=
  match dictGet config_playbook parameter with
  | none => none
  | some v => some (rule_eval (make_boolean v))

/-- `VerifyPlaybookParams.default_param_is_valid`
(verify_playbook_params.py lines 327-368): `None` when the parameter is in
the playbook config, or in the controller config, or has no template
default; otherwise the rule evaluation of the raw default value. -/
def default_param_is_valid (config_playbook config_controller defaults :
    List (String × PyVal)) (parameter : String) (rule_eval : PyVal → Bool) :
    Option Bool :=
  if (dictGet config_playbook parameter).isSome then none
  else if (dictGet config_controller parameter).isSome then none
  else
    match dictGet defaults parameter with
    | none => none
    | some d => some (rule_eval d)

/-- `VerifyPlaybookParams.update_decision_set` (verify_playbook_params.py
lines 370-402): insert each non-`None` sub-result into the decision set,
then — `if not playbook_is_valid:` (Python truthiness, so both `None` and
`False`) — replace the whole set by `{False}`. -/
def update_decision_set (config_controller config_playbook defaults :
    List (String × PyVal)) (parameter : String) (rule_eval : PyVal → Bool) :
    Finset Bool :=
  let controller_is_valid := controller_param_is_valid config_controller parameter rule_eval
  let playbook_is_valid := playbook_param_is_valid config_playbook parameter rule_eval
  let default_is_valid :=
    default_param_is_valid config_playbook config_controller defaults parameter rule_eval
  let s0 : Finset Bool := ∅
  let s1 := match controller_is_valid with
    | some b => insert b s0
    | none => s0
  let s2 := match default_is_valid with
    | some b => insert b s1
    | none => s1
  let s3 := match playbook_is_valid with
    | some b => insert b s2
    | none => s2
  if playbook_is_valid = some true then s3 else {false}

/-! ## Theorems -/

/-- Python `isinstance(v, dict)`. -/
def is_pydict : PyVal → Bool
  | .pydict _ => true
  | _ => false

/-- Python `isinstance(v, list)`. -/
def is_pylist : PyVal → Bool
  | .pylist _ => true
  | _ => false

/-- Claim C7: assigning a wrong-typed value to a property setter raises
`ValueError` or `TypeError` and leaves the stored property value unchanged:
the `check_interval` and `check_timeout` setters raise `TypeError` for any
`bool` or non-`int` value and `ValueError` for any negative `int`,
`FabricConfigSave.payload` raises `ValueError` for any non-`dict` value or
a dict lacking `FABRIC_NAME`, and `ImageValidate.serial_numbers` raises
`TypeError` for any non-`list` value. -/
theorem property_setters_reject_invalid :
    (∀ (s : Int) (v : PyVal), isinstance_bool v = true ∨ isinstance_int v = false →
      check_interval_setter s v = (some PyErr.typeError, s) ∧
      check_timeout_setter s v = (some PyErr.typeError, s))
  ∧ (∀ (s n : Int), n < 0 →
      check_interval_setter s (PyVal.pyint n) = (some PyErr.valueError, s) ∧
      check_timeout_setter s (PyVal.pyint n) = (some PyErr.valueError, s))
  ∧ (∀ (f : PyVal → Bool) (s : Option PyVal) (v : PyVal), is_pydict v = false →
      fcs_payload_setter f s v = (some PyErr.valueError, s))
  ∧ (∀ (f : PyVal → Bool) (s : Option PyVal) (kvs : List (String × PyVal)),
      dictGet kvs "FABRIC_NAME" = none →
      fcs_payload_setter f s (PyVal.pydict kvs) = (some PyErr.valueError, s))
  ∧ (∀ (s : Option PyVal) (v : PyVal), is_pylist v = false →
      serial_numbers_setter s v = (some PyErr.typeError, s)) := by
  refine ⟨?_, ?_, ?_, ?_, ?_⟩
  · intro s v h
    cases v <;>
      simp [check_interval_setter, check_timeout_setter, isinstance_bool,
        isinstance_int] at h ⊢
  · intro s n h
    simp [check_interval_setter, check_timeout_setter, isinstance_bool,
      isinstance_int, h]
  · intro f s v h
    cases v <;> simp [fcs_payload_setter, is_pydict] at h ⊢
  · intro f s kvs h
    simp [fcs_payload_setter, h]
  · intro s v h
    cases v <;> simp [serial_numbers_setter, is_pylist] at h ⊢

/-- Concrete instantiation of `property_setters_reject_invalid`. -/
theorem property_setters_reject_invalid_witness :
    check_interval_setter 10 (PyVal.pybool true) = (some PyErr.typeError, 10) ∧
    check_timeout_setter 1800 (PyVal.pystr "60") = (some PyErr.typeError, 1800) ∧
    check_interval_setter 10 (PyVal.pyint (-5)) = (some PyErr.valueError, 10) ∧
    fcs_payload_setter (fun _ => true) none (PyVal.pystr "f1") =
      (some PyErr.valueError, none) ∧
    fcs_payload_setter (fun _ => true) none (PyVal.pydict [("DEPLOY", PyVal.pybool true)]) =
      (some PyErr.valueError, none) ∧
    serial_numbers_setter none (PyVal.pyint 3) = (some PyErr.typeError, none) :=
  ⟨(property_setters_reject_invalid.1 10 (PyVal.pybool true) (Or.inl rfl)).1,
   (property_setters_reject_invalid.1 1800 (PyVal.pystr "60") (Or.inr rfl)).2,
   (property_setters_reject_invalid.2.1 10 (-5) (by decide)).1,
   property_setters_reject_invalid.2.2.1 (fun _ => true) none (PyVal.pystr "f1") rfl,
   property_setters_reject_invalid.2.2.2.1 (fun _ => true) none
     [("DEPLOY", PyVal.pybool true)] rfl,
   property_setters_reject_invalid.2.2.2.2 none (PyVal.pyint 3) rfl⟩

/-- Claim C6: calling `commit()` before a required property is set raises
`ValueError` and issues no REST request: `FabricConfigSave.commit` raises
`ValueError` when any of `payload`, `rest_send`, `results` is `None`, and
`WaitForControllerDone.commit` raises `ValueError` when any of `items`,
`item_type`, `rest_send` is `None`; in every such case zero REST calls are
issued. -/
theorem commit_missing_property_raises :
    (∀ (ps : FcsProps) (ep : Bool),
      ps.payload = none ∨ ps.rest_send = none ∨ ps.results = none →
      fcs_commit ps ep = (some PyErr.valueError, 0))
  ∧ (∀ (ps : WfcdProps) (p : Nat → String → Bool),
      ps.items = none ∨ ps.item_type = none ∨ ps.rest_send = none →
      wfcd_commit ps p = (some PyErr.valueError, 0)) := by
  constructor
  · intro ps ep h
    obtain ⟨pl, rs, re⟩ := ps
    rcases h with h | h | h <;> subst h
    · simp [fcs_commit]
    · cases pl <;> simp [fcs_commit]
    · cases pl <;> cases rs <;> simp [fcs_commit]
  · intro ps p h
    obtain ⟨it, ty, rs, ci, ct⟩ := ps
    rcases h with h | h | h <;> subst h
    · simp [wfcd_commit]
    · cases it <;> simp [wfcd_commit]
    · cases it <;> cases ty <;> simp [wfcd_commit]

/-- Concrete instantiation of `commit_missing_property_raises`. -/
theorem commit_missing_property_raises_witness :
    fcs_commit { payload := none, rest_send := some (), results := some () } true =
      (some PyErr.valueError, 0) ∧
    wfcd_commit
      { items := some {"SN1"}, item_type := some "serial_number", rest_send := none,
        check_interval := 10, check_timeout := 1800 } (fun _ _ => true) =
      (some PyErr.valueError, 0) :=
  ⟨commit_missing_property_raises.1
     { payload := none, rest_send := some (), results := some () } true (Or.inl rfl),
   commit_missing_property_raises.2
     { items := some {"SN1"}, item_type := some "serial_number", rest_send := none,
       check_interval := 10, check_timeout := 1800 } (fun _ _ => true)
     (Or.inr (Or.inr rfl))⟩

/-- Claim C10: when the collection of things to wait for is empty, `commit`
is a successful no-op that issues no REST request:
`WaitForControllerDone.commit` with empty `items` returns immediately
without polling or raising, and `ImageValidate.commit` with an empty
`serial_numbers` list sets `result_current` to the dict
`{"success": True}` and returns without sending any request. -/
theorem commit_empty_collection_noop :
    (∀ (ps : WfcdProps) (p : Nat → String → Bool),
      ps.items = some ∅ → ps.item_type.isSome = true → ps.rest_send.isSome = true →
      wfcd_commit ps p = (none, 0))
  ∧ (∀ env : IvEnv,
      image_validate_commit env [] =
        { err := none,
          result_current := some [("success", PyVal.pybool true)],
          response_current := some [("response", PyVal.pystr "No serial numbers to validate.")],
          requests := 0 }) := by
  constructor
  · intro ps p h1 h2 h3
    obtain ⟨it, ty, rs, ci, ct⟩ := ps
    cases it <;> cases ty <;> cases rs <;>
      simp_all [wfcd_commit]
  · intro env
    rfl

/-- Concrete instantiation of `commit_empty_collection_noop`. -/
theorem commit_empty_collection_noop_witness :
    wfcd_commit
      { items := some ∅, item_type := some "serial_number", rest_send := some (),
        check_interval := 10, check_timeout := 1800 } (fun _ _ => false) = (none, 0) :=
  commit_empty_collection_noop.1
    { items := some ∅, item_type := some "serial_number", rest_send := some (),
      check_interval := 10, check_timeout := 1800 } (fun _ _ => false) rfl rfl rfl

/-- Claim C9: `VerifyPlaybookParams.update_decision_set` returns a set
containing `True` only if the playbook config contains the dependent
parameter and its value satisfies the rule (the equivalence below), and
whenever the dependent parameter is absent from `config_playbook` the
returned decision set is exactly `{False}`, regardless of the controller
config and of the template default. -/
theorem update_decision_set_playbook_gate (cc cp df : List (String × PyVal))
    (param : String) (re : PyVal → Bool) :
    (true ∈ update_decision_set cc cp df param re ↔
      ∃ v, dictGet cp param = some v ∧ re (make_boolean v) = true)
  ∧ (dictGet cp param = none → update_decision_set cc cp df param re = {false}) := by
  cases hv : dictGet cp param with
  | none =>
    have hp : playbook_param_is_valid cp param re = none := by
      rw [playbook_param_is_valid, hv]
    constructor
    · simp [update_decision_set, hp, hv]
    · intro _
      simp [update_decision_set, hp]
  | some v =>
    have hp : playbook_param_is_valid cp param re = some (re (make_boolean v)) := by
      rw [playbook_param_is_valid, hv]
    constructor
    · cases hb : re (make_boolean v) with
      | false =>
        simp only [update_decision_set, hp, hb]
        constructor
        · intro ht
          exact absurd ht (by simp)
        · rintro ⟨v2, hv2, hre⟩
          cases hv2
          rw [hb] at hre
          exact absurd hre (by simp)
      | true =>
        simp only [update_decision_set, hp, hb]
        constructor
        · intro _
          exact ⟨v, rfl, hb⟩
        · intro _
          simp
    · intro hn
      exact absurd hn (by simp)

/-- Concrete instantiation of `update_decision_set_playbook_gate`: with the
parameter absent from the playbook config, the decision set is `{False}`
although the controller value satisfies the rule. -/
theorem update_decision_set_playbook_gate_witness :
    update_decision_set [("P", PyVal.pybool true)] [] [] "P" pytruthy = {false} :=
  (update_decision_set_playbook_gate [("P", PyVal.pybool true)] [] [] "P" pytruthy).2 rfl

/-! ### Claim C2: the failure handler performs no rollback -/

/-- A create response rejected by `handle_response` (RETURN_CODE 500). -/
def respC2 : Resp :=
  { returnCode := 500, message := some "Internal Server Error",
    errorNotFound := false, hasError := false, inUseAlready := false,
    invalidInterfaces := false, noSwitchesPending := false }

/-- Environment in which the one create POST of `diffsC2` fails. -/
def envC2 : PushEnv :=
  { updateResp := fun _ => Resp.default, detachResp := Resp.default,
    undeployResp := Resp.default, delWaitPolls := fun _ => 0,
    delOutOfSync := fun _ => false, deleteResp := fun _ => Resp.default,
    vlanResp := fun _ => Resp.default, createResp := fun _ => respC2,
    attachResp := fun _ => Resp.default, attachInProgress := fun _ => false,
    deployResp := Resp.default }

/-- Diff collections holding exactly one network to create. -/
def diffsC2 : NetDiffs :=
  { diff_create_update := [], diff_detach := [], diff_undeploy := [],
    diff_delete := [], diff_create := [{ hasVlanId := true }],
    diff_create_quick := [], diff_attach := [], diff_deploy := [] }

/-- Claim C2, evaluated on the code: `DcnmNetworkv2.failure` is the
identity on the module state (the method body is a bare `return`), so when
the create POST fails with `is_rollback = False` the module issues no
further REST call of any kind — in particular no rollback traffic — does
not abort, and proceeds to `exit_json`.  This contradicts the claim (and
the spec intent evidenced by the dead `is_rollback` / `failed_to_rollback`
machinery) that a rollback of already-applied changes is performed. -/
theorem failure_noop_no_rollback :
    (∀ st : ModState, failure st = st) ∧
    (push_to_remote envC2 diffsC2 false
      { changed := true, failed_to_rollback := false, aborted := false }).1 =
      [NetLayer.create] ∧
    (push_to_remote envC2 diffsC2 false
      { changed := true, failed_to_rollback := false, aborted := false }).2 =
      { changed := false, failed_to_rollback := false, aborted := false } :=
  ⟨fun _ => rfl, rfl, rfl⟩

/-! ### Claim C8: the exit-time value of result.changed -/

/-- A deploy response that is accepted (RETURN_CODE 200, MESSAGE OK) but
contains `No switches PENDING for deployment`, which `handle_response`
maps to `changed = False`. -/
def respC8 : Resp :=
  { returnCode := 200, message := some "OK", errorNotFound := false,
    hasError := false, inUseAlready := false, invalidInterfaces := false,
    noSwitchesPending := true }

/-- Environment for the C8 counterexample. -/
def envC8 : PushEnv :=
  { updateResp := fun _ => Resp.default, detachResp := Resp.default,
    undeployResp := Resp.default, delWaitPolls := fun _ => 0,
    delOutOfSync := fun _ => false, deleteResp := fun _ => Resp.default,
    vlanResp := fun _ => Resp.default, createResp := fun _ => Resp.default,
    attachResp := fun _ => Resp.default, attachInProgress := fun _ => false,
    deployResp := respC8 }

/-- Diff collections whose only non-empty layer is `diff_deploy`. -/
def diffsC8 : NetDiffs :=
  { diff_create_update := [], diff_detach := [], diff_undeploy := [],
    diff_delete := [], diff_create := [], diff_create_quick := [],
    diff_attach := [], diff_deploy := [("SN1", ["net1"])] }

/-- Counterexample to claim C8: with `diff_deploy` non-empty (so the
after-diff assignment sets `changed = True`) and a deploy response
answering `No switches PENDING for deployment`, `push_to_remote`
overwrites `result["changed"]` at its `handle_response` call site, and the
module exits (no abort) with `changed = False` even though one of the
eight diff collections is non-empty. -/
theorem changed_overwritten_by_push :
    main_changed_after_diff diffsC8 = true ∧
    (main_exit envC8 diffsC8).2.changed = false ∧
    (main_exit envC8 diffsC8).2.aborted = false :=
  ⟨rfl, rfl, rfl⟩

/-- Claim C8 as amended: the `changed` field is `True` iff one of the eight
diff collections is non-empty at the point where `main` assigns it, right
after the diff computation and before `push_to_remote`; the exit-time value
coincides with it whenever `push_to_remote` pushes nothing (every
`handle_response` call site reassigns `result["changed"]`). -/
theorem changed_reflects_diffs_before_push (env : PushEnv) (d : NetDiffs) :
    (main_changed_after_diff d = true ↔
      ¬(d.diff_create = [] ∧ d.diff_create_quick = [] ∧ d.diff_attach = [] ∧
        d.diff_deploy = [] ∧ d.diff_delete = [] ∧ d.diff_create_update = [] ∧
        d.diff_detach = [] ∧ d.diff_undeploy = []))
  ∧ (d.diff_create_update = [] → d.diff_detach = [] → d.diff_undeploy = [] →
      d.diff_delete = [] → d.diff_create = [] → d.diff_attach = [] →
      d.diff_deploy = [] →
      (main_exit env d).2.changed = main_changed_after_diff d) := by
  constructor
  · simp [main_changed_after_diff, List.isEmpty_iff, or_iff_not_imp_left, not_and_or]
  · intro h1 h2 h3 h4 h5 h6 h7
    simp [main_exit, push_to_remote, h1, h2, h3, h4, h5, h6, h7]

/-- Concrete instantiation of `changed_reflects_diffs_before_push`: with
only `diff_create_quick` non-empty nothing is pushed and the diff-based
value survives to module exit. -/
theorem changed_reflects_diffs_before_push_witness :
    (main_exit envC8
      { diff_create_update := [], diff_detach := [], diff_undeploy := [],
        diff_delete := [], diff_create := [], diff_create_quick := ["net9"],
        diff_attach := [], diff_deploy := [] }).2.changed =
    main_changed_after_diff
      { diff_create_update := [], diff_detach := [], diff_undeploy := [],
        diff_delete := [], diff_create := [], diff_create_quick := ["net9"],
        diff_attach := [], diff_deploy := [] } :=
  (changed_reflects_diffs_before_push envC8
    { diff_create_update := [], diff_detach := [], diff_undeploy := [],
      diff_delete := [], diff_create := [], diff_create_quick := ["net9"],
      diff_attach := [], diff_deploy := [] }).2 rfl rfl rfl rfl rfl rfl rfl

/-! ### Claim C1: get_have attachment classification -/

/-- Every list stored in a `have_deploy` dict built by `get_have` is
nonempty; `have_deploy_insert` preserves this. -/
lemma deployUpdate_wf (m : List (String × List String)) (k : String)
    (v : List String) (hv : v ≠ [])
    (hwf : ∀ kv ∈ m, kv.2 ≠ []) :
    ∀ kv ∈ deployUpdate m k v, kv.2 ≠ [] := by
  induction m with
  | nil =>
    intro kv hkv
    simp [deployUpdate] at hkv
  | cons e rest ih =>
    obtain ⟨ke, ve⟩ := e
    intro kv hkv
    rw [deployUpdate] at hkv
    split at hkv
    · rcases List.mem_cons.mp hkv with h | h
      · subst h
        exact hv
      · exact hwf kv (List.mem_cons_of_mem _ h)
    · rcases List.mem_cons.mp hkv with h | h
      · subst h
        exact hwf (ke, ve) (List.mem_cons_self _ _)
      · exact ih (fun kv2 hkv2 => hwf kv2 (List.mem_cons_of_mem _ hkv2)) kv h

/-- `have_deploy_insert` preserves the nonempty-values invariant. -/
lemma have_deploy_insert_wf (m : List (String × List String)) (sn name : String)
    (hwf : ∀ kv ∈ m, kv.2 ≠ []) :
    ∀ kv ∈ have_deploy_insert m sn name, kv.2 ≠ [] := by
  intro kv hkv
  rw [have_deploy_insert] at hkv
  cases hl : deployLookup m sn with
  | nil =>
    rw [hl] at hkv
    rcases List.mem_append.mp hkv with h | h
    · exact hwf kv h
    · simp at h
      subst h
      simp
  | cons x xs =>
    rw [hl] at hkv
    exact deployUpdate_wf m sn ((x :: xs) ++ [name]) (by simp) hwf kv hkv

/-- `deployUpdate` only changes the first binding of `k`, when present. -/
lemma deployLookup_update (m : List (String × List String)) (k : String)
    (v : List String) (k2 : String) (hk : deployLookup m k ≠ []) :
    deployLookup (deployUpdate m k v) k2 =
      if k2 = k then v else deployLookup m k2 := by
  induction m with
  | nil => simp [deployLookup] at hk
  | cons e rest ih =>
    obtain ⟨ke, ve⟩ := e
    rw [deployLookup] at hk
    rw [deployUpdate]
    by_cases he : ke = k
    · subst he
      rw [if_pos rfl]
      simp only [deployLookup]
      by_cases h2 : ke = k2
      · subst h2
        rw [if_pos rfl, if_pos rfl]
      · rw [if_neg h2, if_neg h2, if_neg (fun h : k2 = ke => h2 h.symm)]
    · rw [if_neg he] at hk
      rw [if_neg he]
      simp only [deployLookup]
      by_cases h2 : ke = k2
      · rw [if_pos h2, if_pos h2, if_neg (fun h : k2 = k => he (h2.trans h))]
      · rw [if_neg h2, if_neg h2, ih hk]

/-- Appending a fresh binding does not disturb existing lookups. -/
lemma deployLookup_append_absent (m : List (String × List String))
    (sn name k : String) (hwf : ∀ kv ∈ m, kv.2 ≠ [])
    (hl : deployLookup m sn = []) :
    deployLookup (m ++ [(sn, [name])]) k =
      if k = sn then [name] else deployLookup m k := by
  induction m with
  | nil =>
    simp only [List.nil_append, deployLookup]
    by_cases h2 : sn = k
    · rw [if_pos h2, if_pos h2.symm]
    · rw [if_neg h2, if_neg (fun h : k = sn => h2 h.symm)]
  | cons e rest ih =>
    obtain ⟨ke, ve⟩ := e
    rw [deployLookup] at hl
    by_cases he : ke = sn
    · rw [if_pos he] at hl
      exact absurd hl (hwf (ke, ve) (List.mem_cons_self _ _))
    · rw [if_neg he] at hl
      rw [List.cons_append]
      simp only [deployLookup]
      by_cases h2 : ke = k
      · rw [if_pos h2, if_pos h2, if_neg (fun h : k = sn => he (h2.trans h))]
      · rw [if_neg h2, if_neg h2,
          ih (fun kv hkv => hwf kv (List.mem_cons_of_mem _ hkv)) hl]

/-- The effect of one `have_deploy` recording step on lookups. -/
lemma deployLookup_insert (m : List (String × List String)) (sn name k : String)
    (hwf : ∀ kv ∈ m, kv.2 ≠ []) :
    deployLookup (have_deploy_insert m sn name) k =
      if k = sn then deployLookup m sn ++ [name] else deployLookup m k := by
  rw [have_deploy_insert]
  cases hl : deployLookup m sn with
  | nil =>
    show deployLookup (m ++ [(sn, [name])]) k = _
    rw [deployLookup_append_absent m sn name k hwf hl]
    simp
  | cons x xs =>
    show deployLookup (deployUpdate m sn ((x :: xs) ++ [name])) k = _
    rw [deployLookup_update m sn ((x :: xs) ++ [name]) k (by rw [hl]; simp)]

/-- Membership characterisation for the full `have_deploy` fold. -/
lemma build_have_deploy_mem_aux (l : List LanAttach)
    (m : List (String × List String)) (hwf : ∀ kv ∈ m, kv.2 ≠ [])
    (sn net : String) :
    (net ∈ deployLookup
        (l.foldl (fun m2 a =>
          if attach_deployed a then have_deploy_insert m2 a.switchSerialNo a.networkName
          else m2) m) sn ↔
      net ∈ deployLookup m sn ∨
        ∃ a ∈ l, attach_deployed a = true ∧ a.switchSerialNo = sn ∧
          a.networkName = net) := by
  induction l generalizing m with
  | nil => simp
  | cons a rest ih =>
    rw [List.foldl_cons]
    by_cases hd : attach_deployed a
    · rw [if_pos hd,
        ih _ (have_deploy_insert_wf m a.switchSerialNo a.networkName hwf),
        deployLookup_insert m a.switchSerialNo a.networkName sn hwf]
      by_cases hs : sn = a.switchSerialNo
      · subst hs
        rw [if_pos rfl]
        simp only [List.mem_append, List.mem_cons, List.not_mem_nil, or_false]
        constructor
        · rintro ((h | h) | h)
          · exact Or.inl h
          · exact Or.inr ⟨a, Or.inl rfl, hd, rfl, h.symm⟩
          · obtain ⟨b, hb, hb2⟩ := h
            exact Or.inr ⟨b, Or.inr hb, hb2⟩
        · rintro (h | ⟨b, hb | hb, hb2⟩)
          · exact Or.inl (Or.inl h)
          · subst hb
            exact Or.inl (Or.inr hb2.2.2.symm)
          · exact Or.inr ⟨b, hb, hb2⟩
      · rw [if_neg hs]
        simp only [List.mem_cons]
        constructor
        · rintro (h | ⟨b, hb, hb2⟩)
          · exact Or.inl h
          · exact Or.inr ⟨b, Or.inr hb, hb2⟩
        · rintro (h | ⟨b, hb | hb, hb2⟩)
          · exact Or.inl h
          · subst hb
            exact absurd hb2.2.1.symm hs
          · exact Or.inr ⟨b, hb, hb2⟩
    · rw [if_neg hd, ih m hwf]
      simp only [List.mem_cons]
      constructor
      · rintro (h | ⟨b, hb, hb2⟩)
        · exact Or.inl h
        · exact Or.inr ⟨b, Or.inr hb, hb2⟩
      · rintro (h | ⟨b, hb | hb, hb2⟩)
        · exact Or.inl h
        · subst hb
          exact absurd hb2.1 hd
        · exact Or.inr ⟨b, hb, hb2⟩

/-- Claim C1: in `DcnmNetworkv2.get_have`, an attachment is classified as
deployed iff its `isLanAttached` field is truthy and its `lanAttachState`
is none of `OUT-OF-SYNC`, `PENDING`, `FAILED`; and its `networkName` is
recorded in `have_deploy` under its `switchSerialNo` iff some attachment
of the response with that serial number and network name is so
classified. -/
theorem get_have_deploy_classification :
    (∀ a : LanAttach,
      attach_deployed a = true ↔
        (pytruthy a.isLanAttached = true ∧ a.lanAttachState ≠ "OUT-OF-SYNC" ∧
         a.lanAttachState ≠ "PENDING" ∧ a.lanAttachState ≠ "FAILED"))
  ∧ (∀ (l : List LanAttach) (sn net : String),
      net ∈ deployLookup (build_have_deploy l) sn ↔
        ∃ a ∈ l, pytruthy a.isLanAttached = true ∧
          a.lanAttachState ≠ "OUT-OF-SYNC" ∧ a.lanAttachState ≠ "PENDING" ∧
          a.lanAttachState ≠ "FAILED" ∧ a.switchSerialNo = sn ∧
          a.networkName = net) := by
  have hcl : ∀ a : LanAttach,
      attach_deployed a = true ↔
        (pytruthy a.isLanAttached = true ∧ a.lanAttachState ≠ "OUT-OF-SYNC" ∧
         a.lanAttachState ≠ "PENDING" ∧ a.lanAttachState ≠ "FAILED") := by
    intro a
    rw [attach_deployed]
    by_cases h : (!(pytruthy a.isLanAttached) || a.lanAttachState == "OUT-OF-SYNC"
        || a.lanAttachState == "PENDING" || a.lanAttachState == "FAILED") = true
    · rw [if_pos h]
      simp only [Bool.or_eq_true, Bool.not_eq_true', beq_iff_eq] at h
      constructor
      · intro hf; exact absurd hf (by simp)
      · rintro ⟨h1, h2, h3, h4⟩
        rcases h with ((h | h) | h) | h
        · rw [h1] at h
          exact absurd h (by simp)
        · exact absurd h h2
        · exact absurd h h3
        · exact absurd h h4
    · rw [if_neg h]
      simp only [Bool.or_eq_true, Bool.not_eq_true', beq_iff_eq, not_or] at h
      obtain ⟨⟨⟨h1, h2⟩, h3⟩, h4⟩ := h
      exact ⟨fun _ => ⟨by simp_all, h2, h3, h4⟩, fun _ => rfl⟩
  refine ⟨hcl, ?_⟩
  intro l sn net
  rw [build_have_deploy,
    build_have_deploy_mem_aux l [] (by simp) sn net]
  simp only [deployLookup, List.not_mem_nil, false_or]
  constructor
  · rintro ⟨a, ha, h1, h2, h3⟩
    exact ⟨a, ha, ((hcl a).mp h1).1, ((hcl a).mp h1).2.1, ((hcl a).mp h1).2.2.1,
      ((hcl a).mp h1).2.2.2, h2, h3⟩
  · rintro ⟨a, ha, h1, h2, h3, h4, h5, h6⟩
    exact ⟨a, ha, (hcl a).mpr ⟨h1, h2, h3, h4⟩, h5, h6⟩

/-! ### Claims C4 and C5: the polling loops -/

/-- With `check_interval = 0` and nothing completing, a loop iteration
leaves the state unchanged. -/
lemma waitStep_zero (todo : Finset String) (n : Nat) (s : WaitSt) :
    waitStep 0 todo (fun _ _ => false) n s = s := by
  simp [waitStep]

/-- With `check_interval = 0` and nothing completing, any number of loop
iterations leaves the state unchanged: the guard never becomes false and
the loop never exits. -/
lemma waitRunP_zero_interval (todo : Finset String) (s : WaitSt) :
    ∀ (fuel n : Nat), (waitRunP 0 todo (fun _ _ => false) n fuel s).1 = s := by
  intro fuel
  induction fuel with
  | zero => intro n; rfl
  | succ f ih =>
    intro n
    rw [waitRunP]
    by_cases hg : waitGuard todo s = true
    · rw [if_pos hg, waitStep_zero]
      exact ih (n + 1)
    · rw [if_neg hg]

/-- If the loop guard still holds after `fuel` executed iterations, every
one of those iterations ran, and each subtracted `interval` from the
timeout, which is still positive. -/
lemma waitRunP_guard_timeout (interval : Int) (todo : Finset String)
    (p : Nat → String → Bool) :
    ∀ (fuel n : Nat) (s : WaitSt),
      waitGuard todo (waitRunP interval todo p n fuel s).1 = true →
      0 < s.timeout - (fuel : Int) * interval := by
  intro fuel
  induction fuel with
  | zero =>
    intro n s h
    rw [waitRunP, waitGuard, Bool.and_eq_true, decide_eq_true_eq,
      decide_eq_true_eq] at h
    simpa using h.2
  | succ f ih =>
    intro n s h
    rw [waitRunP] at h
    by_cases hg : waitGuard todo s = true
    · rw [if_pos hg] at h
      have h3 := ih (n + 1) (waitStep interval todo p n s) (by exact h)
      simp only [waitStep] at h3
      push_cast
      linarith
    · rw [if_neg hg] at h
      exact absurd h hg

/-- Same bound for the loop of `_wait_for_image_validate_to_complete`: if
it neither raised nor exited after `fuel` iterations, the timeout is still
positive. -/
lemma ivValidateLoop_guard_timeout (interval : Int) (todo : Finset String)
    (v : Nat → String → String) :
    ∀ (fuel n : Nat) (s : WaitSt),
      (ivValidateLoop interval todo v n fuel s).2.2 = false →
      waitGuard todo (ivValidateLoop interval todo v n fuel s).1 = true →
      0 < s.timeout - (fuel : Int) * interval := by
  intro fuel
  induction fuel with
  | zero =>
    intro n s _ h
    rw [ivValidateLoop, waitGuard, Bool.and_eq_true, decide_eq_true_eq,
      decide_eq_true_eq] at h
    simpa using h.2
  | succ f ih =>
    intro n s hr h
    rw [ivValidateLoop] at h hr
    by_cases hg : waitGuard todo s = true
    · rw [if_pos hg] at h hr
      by_cases hf : ((todo \ s.done).filter (fun i => v n i = "Failed")) ≠ ∅
      · rw [if_pos hf] at hr
        exact absurd hr (by simp)
      · rw [if_neg hf] at h hr
        have h3 := ih (n + 1)
          { done := s.done ∪ todo.filter (fun i => v n i = "Success"),
            timeout := s.timeout - interval } (by exact hr) (by exact h)
        simp only at h3
        push_cast
        linarith
    · rw [if_neg hg] at h
      exact absurd h hg

/-- Counterexample to claim C4 as stated: the `check_interval` setter
accepts the value `0` (it only rejects non-integers and negative values),
and with `check_interval = 0` an iteration of the wait loop does not
decrease the remaining timeout at all; with controller actions that never
complete, the loop state is unchanged after 100000 iterations (indeed
after any number), the guard still holds, and the loop never terminates —
so the iteration count is not bounded for every accepted setter value. -/
theorem wait_loop_interval_zero_unbounded :
    check_interval_setter 10 (PyVal.pyint 0) = (none, 0) ∧
    waitRun 0 {"SW1"} (fun _ _ => false) 0 100000
        { done := ∅, timeout := 1800 } = { done := ∅, timeout := 1800 } ∧
    waitGuard {"SW1"}
      (waitRun 0 {"SW1"} (fun _ _ => false) 0 100000
        { done := ∅, timeout := 1800 }) = true := by
  have hz := waitRunP_zero_interval {"SW1"} { done := ∅, timeout := 1800 } 100000 0
  refine ⟨rfl, ?_, ?_⟩
  · rw [waitRun]
    exact hz
  · rw [waitRun, hz]
    rfl

/-- Claim C4 as amended: for every `check_interval >= 1` accepted by the
setters, the three wait loops (in `WaitForControllerDone.commit`,
`ImageValidate._wait_for_current_actions_to_complete` — both of shape
`waitRunP` — and `ImageValidate._wait_for_image_validate_to_complete` — of
shape `ivValidateLoop`) are still running after `k` iterations only while
`k * check_interval < check_timeout`, hence execute fewer than
`check_timeout` iterations and terminate; in each iteration the remaining
timeout decreases by `check_interval`. -/
theorem wait_loop_iterations_bounded (interval T : Int) (todo : Finset String)
    (p : Nat → String → Bool) (v : Nat → String → String) (d0 : Finset String)
    (k : Nat) (hi : 1 ≤ interval) :
    (waitGuard todo (waitRun interval todo p 0 k { done := d0, timeout := T }) = true →
      (k : Int) * interval < T ∧ (k : Int) < T)
  ∧ ((ivValidateLoop interval todo v 0 k { done := d0, timeout := T }).2.2 = false →
      waitGuard todo
        (ivValidateLoop interval todo v 0 k { done := d0, timeout := T }).1 = true →
      (k : Int) * interval < T ∧ (k : Int) < T) := by
  have hk : (0 : Int) ≤ (k : Int) := Int.natCast_nonneg k
  have hmul : (k : Int) * 1 ≤ (k : Int) * interval := by
    exact mul_le_mul_of_nonneg_left hi hk
  constructor
  · intro hg
    have h := waitRunP_guard_timeout interval todo p k 0
      { done := d0, timeout := T } hg
    constructor
    · simpa using (by linarith : (k : Int) * interval < T)
    · linarith [hmul]
  · intro hr hg
    have h := ivValidateLoop_guard_timeout interval todo v k 0
      { done := d0, timeout := T } hr hg
    constructor
    · simpa using (by linarith : (k : Int) * interval < T)
    · linarith [hmul]

/-- Concrete instantiation of `wait_loop_iterations_bounded`. -/
theorem wait_loop_iterations_bounded_witness :
    ((2 : Int) * 10 < 25 ∧ (2 : Int) < 25) :=
  (wait_loop_iterations_bounded 10 25 {"SW1"} (fun _ _ => false)
    (fun _ _ => "In-Progress") ∅ 2 (by decide)).1 (by rfl)

/-- The done set of the polling loop stays inside `todo`. -/
lemma waitRunP_done_subset (interval : Int) (todo : Finset String)
    (p : Nat → String → Bool) :
    ∀ (fuel n : Nat) (s : WaitSt), s.done ⊆ todo →
      (waitRunP interval todo p n fuel s).1.done ⊆ todo := by
  intro fuel
  induction fuel with
  | zero => intro n s h; exact h
  | succ f ih =>
    intro n s h
    rw [waitRunP]
    by_cases hg : waitGuard todo s = true
    · rw [if_pos hg]
      show (waitRunP interval todo p (n + 1) f (waitStep interval todo p n s)).1.done ⊆ todo
      apply ih
      intro x hx
      have hx2 : x ∈ s.done ∨ x ∈ todo ∧ p n x = true := by
        simpa [waitStep] using hx
      rcases hx2 with h1 | h1
      · exact h h1
      · exact h1.1
    · rw [if_neg hg]
      exact h

/-- If every item of `todo` reports complete from refresh index `n`
onwards, and the timeout still allows iteration `n` to run, the loop ends
with `done = todo`. -/
lemma waitRunP_completes (interval : Int) (todo : Finset String)
    (p : Nat → String → Bool) (T : Int) (n : Nat)
    (hi : 1 ≤ interval) (hn : (n : Int) * interval < T)
    (hp : ∀ i ∈ todo, ∀ m, n ≤ m → p m i = true) :
    ∀ (fuel start : Nat) (s : WaitSt), s.done ⊆ todo →
      (n < start → s.done = todo) →
      s.timeout = T - (start : Int) * interval →
      n < start + fuel →
      (waitRunP interval todo p start fuel s).1.done = todo := by
  intro fuel
  induction fuel with
  | zero =>
    intro start s _ h2 _ h4
    exact h2 (by omega)
  | succ f ih =>
    intro start s h1 h2 h3 h4
    rw [waitRunP]
    by_cases hg : waitGuard todo s = true
    · rw [if_pos hg]
      show (waitRunP interval todo p (start + 1) f
        (waitStep interval todo p start s)).1.done = todo
      apply ih
      · intro x hx
        have hx2 : x ∈ s.done ∨ x ∈ todo ∧ p start x = true := by
          simpa [waitStep] using hx
        rcases hx2 with hx1 | hx1
        · exact h1 hx1
        · exact hx1.1
      · intro hlt
        have hstart : n ≤ start := by omega
        have hfilter : todo.filter (fun i => p start i) = todo := by
          apply Finset.filter_eq_self.mpr
          intro x hx
          simpa using hp x hx start hstart
        simp only [waitStep, hfilter]
        exact Finset.union_eq_right.mpr h1
      · simp only [waitStep, h3]
        push_cast
        ring
      · omega
    · rw [if_neg hg]
      have hg2 : s.done = todo ∨ s.timeout ≤ 0 := by
        by_contra hc
        push_neg at hc
        exact hg (by simp [waitGuard, hc.1, hc.2])
      rcases hg2 with hdone | htime
      · exact hdone
      · by_cases hstart : n < start
        · exact h2 hstart
        · exfalso
          push_neg at hstart
          rw [h3] at htime
          have hle : (start : Int) * interval ≤ (n : Int) * interval := by
            apply mul_le_mul_of_nonneg_right _ (by linarith : (0 : Int) ≤ interval)
            exact_mod_cast hstart
          linarith

/-- The final done set of the polling loop run by
`WaitForControllerDone.commit`. -/
def wfcd_final_done (ps : WfcdProps) (items : Finset String)
    (p : Nat → String → Bool) : Finset String :=
  (waitRunP ps.check_interval items p 0 ps.check_timeout.toNat
    { done := ∅, timeout := ps.check_timeout }).1.done

/-- Claim C5: with its required properties set (and a positive
`check_interval`, without which the Python loop need not terminate),
`WaitForControllerDone.commit` raises `ValueError` exactly when the
polling loop ends with the set of done items different from the set of
items to wait for; and whenever every item reports complete from some
refresh `n` that the timeout still allows (`n * check_interval <
check_timeout`), `commit` returns without raising. -/
theorem wfcd_commit_raises_iff_incomplete (ps : WfcdProps)
    (items : Finset String) (p : Nat → String → Bool)
    (h1 : ps.items = some items) (h2 : ps.item_type.isSome = true)
    (h3 : ps.rest_send.isSome = true) (h4 : 1 ≤ ps.check_interval) :
    ((wfcd_commit ps p).1 = some PyErr.valueError ↔
      ¬ items ⊆ wfcd_final_done ps items p)
  ∧ (∀ n : Nat, (n : Int) * ps.check_interval < ps.check_timeout →
      (∀ i ∈ items, ∀ m, n ≤ m → p m i = true) →
      (wfcd_commit ps p).1 = none) := by
  obtain ⟨it, ty, rs, ci, ct⟩ := ps
  simp only at h1 h2 h3 h4 ⊢
  subst h1
  cases ty with
  | none => simp at h2
  | some tv =>
    cases rs with
    | none => simp at h3
    | some rv =>
      simp only [wfcd_commit, wfcd_final_done, Option.isNone_none,
        Option.isNone_some, Bool.false_eq_true, if_false]
      by_cases hcard : items.card = 0
      · have hempty : items = ∅ := Finset.card_eq_zero.mp hcard
        subst hempty
        rw [if_pos hcard]
        constructor
        · constructor
          · intro h
            exact absurd h (by simp)
          · intro h
            exact absurd (Finset.empty_subset _) h
        · intro n _ _
          rfl
      · rw [if_neg hcard]
        have hsub : (waitRunP ci items p 0 ct.toNat
            { done := ∅, timeout := ct }).1.done ⊆ items :=
          waitRunP_done_subset ci items p ct.toNat 0 _ (Finset.empty_subset _)
        constructor
        · by_cases hne : (waitRunP ci items p 0 ct.toNat
              { done := ∅, timeout := ct }).1.done ≠ items
          · rw [if_pos hne]
            simp only [true_iff]
            intro hcontra
            exact hne (Finset.Subset.antisymm hsub hcontra)
          · rw [if_neg hne]
            push_neg at hne
            simp only [hne]
            constructor
            · intro h
              exact absurd h (by simp)
            · intro h
              exact absurd (Finset.Subset.refl items) h
        · intro n hn hp
          have hdone : (waitRunP ci items p 0 ct.toNat
              { done := ∅, timeout := ct }).1.done = items := by
            apply waitRunP_completes ci items p ct n h4 hn hp ct.toNat 0
            · exact Finset.empty_subset _
            · intro h
              omega
            · simp
            · have hn2 : (n : Int) < ct := by
                have : (n : Int) * 1 ≤ (n : Int) * ci :=
                  mul_le_mul_of_nonneg_left h4 (Int.natCast_nonneg n)
                simp at this
                linarith
              omega
          rw [if_neg (by simp [hdone])]

/-- Concrete instantiation of `wfcd_commit_raises_iff_incomplete`: one
serial number that reports complete at the first refresh. -/
theorem wfcd_commit_raises_iff_incomplete_witness :
    (wfcd_commit
      { items := some {"SN1"}, item_type := some "serial_number",
        rest_send := some (), check_interval := 10, check_timeout := 1800 }
      (fun _ _ => true)).1 = none :=
  (wfcd_commit_raises_iff_incomplete
    { items := some {"SN1"}, item_type := some "serial_number",
      rest_send := some (), check_interval := 10, check_timeout := 1800 }
    {"SN1"} (fun _ _ => true) rfl rfl rfl (by decide)).2 0 (by decide)
    (fun _ _ _ _ => rfl)

/-! ### Claim C3: push_to_remote layer order -/

/-- Membership in a guarded layer push (`if <diff empty> then ([], st)
else <push>`) implies membership in the unguarded push trace. -/
lemma mem_guard_pair {c : Prop} [Decidable c] {st : ModState}
    {f : List NetLayer × ModState} {x : NetLayer}
    (hx : x ∈ (if c then (([] : List NetLayer), st) else f).1) : x ∈ f.1 := by
  split at hx
  · simp at hx
  · exact hx

/-- Membership in an ite of lists splits by branch. -/
lemma mem_ite_list {c : Prop} [Decidable c] {l1 l2 : List NetLayer}
    {x : NetLayer} (hx : x ∈ if c then l1 else l2) : x ∈ l1 ∨ x ∈ l2 := by
  split at hx
  · exact Or.inl hx
  · exact Or.inr hx

/-- Every call issued by `push_to_remote_update` belongs to the
create-update layer. -/
lemma push_update_nets_all (env : PushEnv) (rb : Bool) :
    ∀ (l : List String) (idx : Nat) (st : ModState) (x : NetLayer),
      x ∈ (push_update_nets env rb l idx st).1 → x = NetLayer.createUpdate := by
  intro l
  induction l with
  | nil =>
    intro idx st x hx
    simp [push_update_nets] at hx
  | cons a rest ih =>
    intro idx st x hx
    rw [push_update_nets] at hx
    dsimp only at hx
    split at hx
    · split at hx
      · simp at hx
        exact hx
      · rcases List.mem_cons.mp hx with h | h
        · exact h
        · exact ih _ _ _ h
    · rcases List.mem_cons.mp hx with h | h
      · exact h
      · exact ih _ _ _ h

/-- The detach push issues exactly one POST. -/
lemma push_detach_trace (env : PushEnv) (rb : Bool) (st : ModState) :
    (push_detach env rb st).1 = [NetLayer.detach] := by
  rw [push_detach]
  dsimp only
  split_ifs <;> rfl

/-- The undeploy push issues exactly one POST. -/
lemma push_undeploy_trace (env : PushEnv) (rb : Bool) (st : ModState) :
    (push_undeploy env rb st).1 = [NetLayer.undeploy] := by
  rw [push_undeploy]
  dsimp only
  split_ifs <;> rfl

/-- The deploy push issues exactly one POST. -/
lemma push_deploy_trace (env : PushEnv) (rb : Bool) (st : ModState) :
    (push_deploy env rb st).1 = [NetLayer.deploy] := by
  rw [push_deploy]
  dsimp only
  split_ifs <;> rfl

/-- Every GET issued while waiting for delete readiness belongs to the
delete layer. -/
lemma del_wait_trace_all (env : PushEnv) (n : Nat) (x : NetLayer) :
    x ∈ del_wait_trace env n → x = NetLayer.delete := by
  intro hx
  rw [del_wait_trace] at hx
  simp only [List.mem_flatten, List.mem_map] at hx
  obtain ⟨l, ⟨i, _, hl⟩, hxl⟩ := hx
  subst hl
  exact List.eq_of_mem_replicate hxl

/-- Every DELETE issued by the deletion loop belongs to the delete layer. -/
lemma push_delete_nets_all (env : PushEnv) (rb : Bool) :
    ∀ (l : List String) (idx : Nat) (st : ModState) (x : NetLayer),
      x ∈ (push_delete_nets env rb l idx st).1 → x = NetLayer.delete := by
  intro l
  induction l with
  | nil =>
    intro idx st x hx
    simp [push_delete_nets] at hx
  | cons a rest ih =>
    intro idx st x hx
    rw [push_delete_nets] at hx
    dsimp only at hx
    split at hx
    · exact ih _ _ _ hx
    · split at hx
      · split at hx
        · simp at hx
          exact hx
        · rcases List.mem_cons.mp hx with h | h
          · exact h
          · exact ih _ _ _ h
      · rcases List.mem_cons.mp hx with h | h
        · exact h
        · exact ih _ _ _ h

/-- Every call issued by `push_to_remote_delete` belongs to the delete
layer. -/
lemma push_delete_all (env : PushEnv) (dd : List String) (rb : Bool)
    (st : ModState) (x : NetLayer) :
    x ∈ (push_delete env dd rb st).1 → x = NetLayer.delete := by
  intro hx
  rw [push_delete] at hx
  dsimp only at hx
  have hmem : x ∈ del_wait_trace env dd.length ++
      (push_delete_nets env rb dd 0 st).1 := by
    split at hx
    · split at hx
      · exact hx
      · exact hx
    · exact hx
  rcases List.mem_append.mp hmem with h | h
  · exact del_wait_trace_all env _ x h
  · exact push_delete_nets_all env rb dd 0 st x h

/-- Every call issued by `push_to_remote_create` (vlan GET or create POST)
belongs to the create layer. -/
lemma push_create_nets_all (env : PushEnv) (rb : Bool) :
    ∀ (l : List CreateNet) (idx : Nat) (st : ModState) (x : NetLayer),
      x ∈ (push_create_nets env rb l idx st).1 → x = NetLayer.create := by
  intro l
  induction l with
  | nil =>
    intro idx st x hx
    simp [push_create_nets] at hx
  | cons a rest ih =>
    intro idx st x hx
    rw [push_create_nets] at hx
    dsimp only at hx
    split at hx
    · simp at hx
      exact hx
    · split at hx
      · split at hx
        · rcases List.mem_append.mp hx with h | h
          · rcases mem_ite_list h with h2 | h2
            · simp at h2
            · simp at h2
              exact h2
          · simp at h
            exact h
        · rcases List.mem_append.mp hx with h | h
          · rcases mem_ite_list h with h2 | h2
            · simp at h2
            · simp at h2
              exact h2
          · rcases List.mem_cons.mp h with h2 | h2
            · exact h2
            · exact ih _ _ _ h2
      · rcases List.mem_append.mp hx with h | h
        · rcases mem_ite_list h with h2 | h2
          · simp at h2
          · simp at h2
            exact h2
        · rcases List.mem_cons.mp h with h2 | h2
          · exact h2
          · exact ih _ _ _ h2

/-- Every POST of the attach retry loop belongs to the attach layer. -/
lemma attach_retry_all (env : PushEnv) :
    ∀ (fuel attempt : Nat) (x : NetLayer),
      x ∈ (attach_retry env attempt fuel).1 → x = NetLayer.attach := by
  intro fuel
  induction fuel with
  | zero =>
    intro attempt x hx
    simp [attach_retry] at hx
  | succ f ih =>
    intro attempt x hx
    rw [attach_retry] at hx
    dsimp only at hx
    split at hx
    · rcases List.mem_cons.mp hx with h | h
      · exact h
      · exact ih _ _ h
    · simp at hx
      exact hx

/-- Every call issued by `push_to_remote_attach` belongs to the attach
layer. -/
lemma push_attach_all (env : PushEnv) (rb : Bool) (st : ModState)
    (x : NetLayer) :
    x ∈ (push_attach env rb st).1 → x = NetLayer.attach := by
  intro hx
  rw [push_attach] at hx
  dsimp only at hx
  have hmem : x ∈ (attach_retry env 0 50).1 := by
    split at hx
    · split at hx
      · exact hx
      · exact hx
    · exact hx
  exact attach_retry_all env 50 0 x hmem

/-- A list whose elements are all one layer is rank-sorted. -/
lemma pairwise_of_all_eq (c : NetLayer) (t : List NetLayer)
    (hall : ∀ x ∈ t, x = c) :
    t.Pairwise (fun a b => layerRank a ≤ layerRank b) := by
  induction t with
  | nil => exact List.Pairwise.nil
  | cons a l ih =>
    constructor
    · intro b hb
      rw [hall a (List.mem_cons_self a l), hall b (List.mem_cons_of_mem a hb)]
    · exact ih (fun x hx => hall x (List.mem_cons_of_mem a hx))

/-- Prepending a homogeneous segment to a rank-sorted trace of layers that
all rank at least as high keeps the trace rank-sorted. -/
lemma seg_append (c : NetLayer) (t1 t2 : List NetLayer)
    (hall : ∀ x ∈ t1, x = c)
    (hp : t2.Pairwise (fun a b => layerRank a ≤ layerRank b))
    (hge : ∀ x ∈ t2, layerRank c ≤ layerRank x) :
    ((t1 ++ t2).Pairwise (fun a b => layerRank a ≤ layerRank b)) ∧
      ∀ x ∈ t1 ++ t2, layerRank c ≤ layerRank x := by
  constructor
  · rw [List.pairwise_append]
    refine ⟨pairwise_of_all_eq c t1 hall, hp, ?_⟩
    intro a ha b hb
    rw [hall a ha]
    exact hge b hb
  · intro x hx
    rcases List.mem_append.mp hx with h | h
    · rw [hall x h]
    · exact hge x h

/-- Seven homogeneous segments concatenated in the fixed layer order form
a rank-sorted trace. -/
lemma layer_order_chain (t1 t2 t3 t4 t5 t6 t7 : List NetLayer)
    (h1 : ∀ x ∈ t1, x = NetLayer.createUpdate)
    (h2 : ∀ x ∈ t2, x = NetLayer.detach)
    (h3 : ∀ x ∈ t3, x = NetLayer.undeploy)
    (h4 : ∀ x ∈ t4, x = NetLayer.delete)
    (h5 : ∀ x ∈ t5, x = NetLayer.create)
    (h6 : ∀ x ∈ t6, x = NetLayer.attach)
    (h7 : ∀ x ∈ t7, x = NetLayer.deploy) :
    (t1 ++ (t2 ++ (t3 ++ (t4 ++ (t5 ++ (t6 ++ t7)))))).Pairwise
      (fun a b => layerRank a ≤ layerRank b) := by
  have p7 : t7.Pairwise (fun a b => layerRank a ≤ layerRank b) ∧
      ∀ x ∈ t7, layerRank NetLayer.deploy ≤ layerRank x := by
    refine ⟨pairwise_of_all_eq _ _ h7, ?_⟩
    intro x hx
    rw [h7 x hx]
  have p6 := seg_append NetLayer.attach t6 t7 h6 p7.1
    (fun x hx => le_trans (by decide) (p7.2 x hx))
  have p5 := seg_append NetLayer.create t5 (t6 ++ t7) h5 p6.1
    (fun x hx => le_trans (by decide) (p6.2 x hx))
  have p4 := seg_append NetLayer.delete t4 (t5 ++ (t6 ++ t7)) h4 p5.1
    (fun x hx => le_trans (by decide) (p5.2 x hx))
  have p3 := seg_append NetLayer.undeploy t3 (t4 ++ (t5 ++ (t6 ++ t7))) h3 p4.1
    (fun x hx => le_trans (by decide) (p4.2 x hx))
  have p2 := seg_append NetLayer.detach t2 (t3 ++ (t4 ++ (t5 ++ (t6 ++ t7)))) h2
    p3.1 (fun x hx => le_trans (by decide) (p3.2 x hx))
  exact (seg_append NetLayer.createUpdate t1
    (t2 ++ (t3 ++ (t4 ++ (t5 ++ (t6 ++ t7))))) h1 p2.1
    (fun x hx => le_trans (by decide) (p2.2 x hx))).1

/-- Claim C3: `push_to_remote` pushes the non-empty diff layers to the
controller in the fixed order create-update, detach, undeploy, delete,
create, attach, deploy (the trace of issued REST calls is sorted by layer
rank); in particular every detach and undeploy call precedes every delete,
create, attach and deploy call. -/
theorem push_to_remote_layer_order (env : PushEnv) (d : NetDiffs) (rb : Bool)
    (st : ModState) :
    ((push_to_remote env d rb st).1.Pairwise
      (fun a b => layerRank a ≤ layerRank b)) ∧
    ((push_to_remote env d rb st).1.Pairwise (fun a b =>
      (b = NetLayer.detach ∨ b = NetLayer.undeploy) →
        (a = NetLayer.createUpdate ∨ a = NetLayer.detach ∨
          a = NetLayer.undeploy))) := by
  have hmain : (push_to_remote env d rb st).1.Pairwise
      (fun a b => layerRank a ≤ layerRank b) := by
    rw [push_to_remote]
    dsimp only
    refine layer_order_chain _ _ _ _ _ _ _ ?_ ?_ ?_ ?_ ?_ ?_ ?_
    · intro x hx
      exact push_update_nets_all env rb _ _ _ x (mem_guard_pair hx)
    · intro x hx
      have hx2 := mem_guard_pair hx
      rw [push_detach_trace] at hx2
      simpa using hx2
    · intro x hx
      have hx2 := mem_guard_pair hx
      rw [push_undeploy_trace] at hx2
      simpa using hx2
    · intro x hx
      exact push_delete_all env _ rb _ x (mem_guard_pair hx)
    · intro x hx
      exact push_create_nets_all env rb _ _ _ x (mem_guard_pair hx)
    · intro x hx
      exact push_attach_all env rb _ x (mem_guard_pair hx)
    · intro x hx
      have hx2 := mem_guard_pair hx
      rw [push_deploy_trace] at hx2
      simpa using hx2
  refine ⟨hmain, hmain.imp ?_⟩
  intro a b h hb
  rcases hb with hb | hb <;> subst hb <;> cases a <;> simp [layerRank] at h ⊢

end Dcnm
